import Mathlib

/-!
Verification of the message-lifecycle subsystem (MessageRegister.js and
MessageHandler.js).  The JavaScript is shallowly embedded: the three
module-level Maps, the document tree and the per-element event listeners
form an explicit state, every exported function becomes a state
transformer that also records an execution trace (hook dispatches, hook
callback invocations, log lines) and either returns normally or raises a
JavaScript error (modelled with Except).  ES modules run in strict mode,
so a property assignment whose target is a primitive raises a TypeError,
and calling a method that does not exist (Map.prototype.add) also raises
a TypeError; both are modelled faithfully.  Hook callbacks are opaque and
identified by a number: the embedding never needs to run one, it only
records which callback would be invoked.
-/

namespace Msgs

/-- The Symbol values the two modules create: the five MESSAGE_LEVEL
symbols (MessageLevel.js), the five HOOK_TYPE symbols and GLOBAL_HOOK_ID
(MessageRegister.js). -/
inductive Sym
  | ERROR | WARN | INFO | LOADING | SUCCESS
  | SHOW | HIDE | DISMISS_START | DISMISS_END | ACTION_BUTTON
  | GLOBAL
  deriving DecidableEq, Repr

/-- Opaque identifier of a JavaScript callback function. -/
abbrev HookFn := Nat

/-- Nodes of the document tree are identified by a number. -/
abbrev NodeId := Nat

/-- The JavaScript values this module passes around.  actionBtn models an
object literal of shape with fields text and action, the only plain
object shape the code inspects. -/
inductive JsVal
  | undef
  | jsnull
  | bool (b : Bool)
  | str (s : String)
  | sym (s : Sym)
  | elem (n : NodeId)
  | fn (f : HookFn)
  | actionBtn (text : String) (action : JsVal)
  deriving DecidableEq, Repr

/-- Property keys of JavaScript objects: strings or symbols.  node stands
for the stringification of an element used as a computed property key (a
corner the code never exercises on purpose). -/
inductive JsKey
  | str (s : String)
  | sym (s : Sym)
  | node (n : NodeId)
  deriving DecidableEq, Repr

/-- Coercion of a value to a property key, as JavaScript does for
computed member access. -/
def valToKey : JsVal → JsKey
  | JsVal.str s => JsKey.str s
  | JsVal.sym s => JsKey.sym s
  | JsVal.elem n => JsKey.node n
  | JsVal.undef => JsKey.str "undefined"
  | JsVal.jsnull => JsKey.str "null"
  | JsVal.bool b => JsKey.str (if b then "true" else "false")
  | JsVal.fn _ => JsKey.str "function"
  | JsVal.actionBtn _ _ => JsKey.str "object"

/-- The two private functions of MessageRegister.js that are installed as
DOM event listeners. -/
inductive Handler
  | dismissMessage
  | actionButtonClicked
  deriving DecidableEq, Repr

/-- Observable events of a run: entering runHook for a pair
(messagetype, hooktype), invoking a stored hook callback, and the calls
into the logging facade. -/
inductive Ev
  | dispatch (messagetype hooktype : JsVal)
  | invoke (f : HookFn) (param : JsVal)
  | log (msg : String)
  deriving DecidableEq, Repr

def Ev.isInvoke : Ev → Bool
  | Ev.invoke _ _ => true
  | _ => false

/-- JavaScript errors: TypeError raised by the runtime, and Error objects
thrown by the module itself. -/
inductive Err
  | typeError (msg : String)
  | jsError (msg : String)
  deriving DecidableEq, Repr

/-- Association list lookup (first binding wins, like Map.prototype.get
with the insertion order of an assoc list without duplicate keys). -/
def alookup {α β : Type} [DecidableEq α] : List (α × β) → α → Option β
  | [], _ => none
  | (a, b) :: t, k => if a = k then some b else alookup t k

/-- Association list update: replaces the first binding of the key in
place, appends a new binding at the end otherwise (Map.prototype.set
semantics). -/
def aset {α β : Type} [DecidableEq α] : List (α × β) → α → β → List (α × β)
  | [], k, v => [(k, v)]
  | (a, b) :: t, k, v => if a = k then (k, v) :: t else (a, b) :: aset t k v

/-- One element of the document: id attribute, class list, text content,
parent, direct children in document order, attached event listeners and
other attributes. -/
structure ElemSt where
  idAttr : String
  classes : List String
  text : String
  parent : Option NodeId
  children : List NodeId
  listeners : List (String × Handler)
  attrs : List (String × String)
  deriving DecidableEq, Repr

/-- The document: a finite collection of nodes. -/
structure Dom where
  nodes : List (NodeId × ElemSt)
  deriving DecidableEq, Repr

def Dom.find? (d : Dom) (n : NodeId) : Option ElemSt :=
  alookup d.nodes n

def Dom.update (d : Dom) (n : NodeId) (f : ElemSt → ElemSt) : Dom :=
  ⟨d.nodes.map (fun p => if p.1 = n then (p.1, f p.2) else p)⟩

/-- All descendants of a node in preorder, with fuel because the child
relation is a finite graph. -/
def Dom.descendants (d : Dom) : Nat → NodeId → List NodeId
  | 0, _ => []
  | Nat.succ fuel, n =>
    match d.find? n with
    | some e => e.children.flatMap (fun c => c :: Dom.descendants d fuel c)
    | none => []

/-- getElementsByClassName on an element: descendants carrying the class,
in document order. -/
def Dom.byClass (d : Dom) (root : NodeId) (c : String) : List NodeId :=
  (d.descendants (d.nodes.length + 1) root).filter
    (fun m => match d.find? m with
      | some e => e.classes.contains c
      | none => false)

/-- Structural content of the subtree under a node: what
Node.isEqualNode compares (attributes and text of the node and of its
descendants; event listeners and node identity are ignored). -/
def Dom.shapeOf (d : Dom) : Nat → NodeId → List (String × List String × String × List (String × String))
  | 0, _ => []
  | Nat.succ fuel, n =>
    match d.find? n with
    | some e => (e.idAttr, e.classes, e.text, e.attrs) :: e.children.flatMap (Dom.shapeOf d fuel)
    | none => []

/-- Node.isEqualNode: structural equality of the two subtrees. -/
def Dom.isEqualNode (d : Dom) (a b : NodeId) : Bool :=
  decide (d.shapeOf (d.nodes.length + 1) a = d.shapeOf (d.nodes.length + 1) b)

/-- document.getElementById: the first node whose id attribute matches,
null when there is none. -/
def Dom.getElementById (d : Dom) (i : String) : JsVal :=
  match d.nodes.find? (fun p => p.2.idAttr = i) with
  | some p => JsVal.elem p.1
  | none => JsVal.jsnull

/-- A hook bundle: a JavaScript object holding callback slots, keyed by
strings or symbols.  An absent key is undefined; a present key may hold
null. -/
abbrev Bundle := List (JsKey × JsVal)

/-- The mutable state of the two modules: the document, the three
module-level Maps of MessageRegister.js, and the localization service
(an external collaborator, modelled as an oracle).  hooksMap holds the
entries of the hooks Map (hooks.get and hooks.set); hooksProps holds the
own properties written on the Map object itself by the bracket syntax
used for custom messages.  A hooks Map entry can hold undefined (stored
as none). -/
structure St where
  dom : Dom
  elementByType : List (JsVal × JsVal)
  styleClassByType : List (JsVal × JsVal)
  hooksMap : List (JsVal × Option Bundle)
  hooksProps : List (JsKey × Bundle)
  i18n : List JsVal → String

abbrev Trace := List Ev

/-- Result of running an embedded computation: the outcome (a normal
return or a raised error), the final state, and the trace.  A raised
error keeps the state mutations performed before the raise, exactly as
JavaScript exceptions do. -/
structure Out (α : Type) where
  res : Except Err α
  st : St
  tr : Trace

/-- The embedding monad: state, trace, and JavaScript exceptions. -/
def M (α : Type) : Type := St → Out α

def M.pure {α : Type} (a : α) : M α := fun s => ⟨Except.ok a, s, []⟩

def M.bind {α β : Type} (m : M α) (k : α → M β) : M β := fun s =>
  let o := m s
  match o.res with
  | Except.error e => ⟨Except.error e, o.st, o.tr⟩
  | Except.ok a =>
    let o2 := k a o.st
    ⟨o2.res, o2.st, o.tr ++ o2.tr⟩

instance : Monad M where
  pure := M.pure
  bind := M.bind

def getSt : M St := fun s => ⟨Except.ok s, s, []⟩

def modifySt (f : St → St) : M Unit := fun s => ⟨Except.ok (), f s, []⟩

def emit (e : Ev) : M Unit := fun s => ⟨Except.ok (), s, [e]⟩

def throwE {α : Type} (e : Err) : M α := fun s => ⟨Except.error e, s, []⟩

/-- Truthiness of the JavaScript values we model. -/
def isFalsy : JsVal → Bool
  | JsVal.undef => true
  | JsVal.jsnull => true
  | JsVal.bool b => !b
  | JsVal.str s => s = ""
  | _ => false

/-- lodash isFunction. -/
def isFunction : JsVal → Bool
  | JsVal.fn _ => true
  | _ => false

def optToVal : Option NodeId → JsVal
  | some n => JsVal.elem n
  | none => JsVal.undef

/-- Mutate a document node; member access on a value that is not an
element raises a TypeError. -/
def domModify (v : JsVal) (f : ElemSt → ElemSt) : M Unit :=
  match v with
  | JsVal.elem n => do
    let s ← getSt
    match s.dom.find? n with
    | some _ => modifySt (fun st => { st with dom := st.dom.update n f })
    | none => throwE (Err.typeError "node is not part of the document model")
  | _ => throwE (Err.typeError "member access on a non-element value")

/-- classList.add: appends the class unless present. -/
def classAddM (v : JsVal) (c : String) : M Unit :=
  domModify v (fun e =>
    { e with classes := if e.classes.contains c then e.classes else e.classes ++ [c] })

/-- classList.remove. -/
def classRemoveM (v : JsVal) (c : String) : M Unit :=
  domModify v (fun e => { e with classes := e.classes.filter (fun x => x != c) })

/-- classList.contains. -/
def classContainsM (v : JsVal) (c : String) : M Bool :=
  match v with
  | JsVal.elem n => do
    let s ← getSt
    match s.dom.find? n with
    | some e => pure (e.classes.contains c)
    | none => throwE (Err.typeError "node is not part of the document model")
  | _ => throwE (Err.typeError "classList of a non-element value")

/-- addEventListener: identical (event, listener) pairs are stored once. -/
def addListenerM (v : JsVal) (ev : String) (h : Handler) : M Unit :=
  domModify v (fun e =>
    { e with listeners := if e.listeners.contains (ev, h) then e.listeners else e.listeners ++ [(ev, h)] })

/-- removeEventListener. -/
def removeListenerM (v : JsVal) (ev : String) (h : Handler) : M Unit :=
  domModify v (fun e => { e with listeners := e.listeners.filter (fun p => p != (ev, h)) })

/-- textContent assignment. -/
def setTextM (v : JsVal) (t : String) : M Unit :=
  domModify v (fun e => { e with text := t })

/-- setAttribute. -/
def setAttrM (v : JsVal) (a t : String) : M Unit :=
  domModify v (fun e => { e with attrs := aset e.attrs a t })

/-- removeAttribute. -/
def removeAttrM (v : JsVal) (a : String) : M Unit :=
  domModify v (fun e => { e with attrs := e.attrs.filter (fun p => p.1 != a) })

/-- parentElement / parentNode. -/
def parentNodeOf (v : JsVal) : M JsVal :=
  match v with
  | JsVal.elem n => do
    let s ← getSt
    match s.dom.find? n with
    | some e => pure (match e.parent with | some p => JsVal.elem p | none => JsVal.jsnull)
    | none => throwE (Err.typeError "node is not part of the document model")
  | _ => throwE (Err.typeError "parent of a non-element value")

/-- getElementsByClassName(c)[0] on an element value. -/
def getFirstByClass (v : JsVal) (c : String) : M (Option NodeId) :=
  match v with
  | JsVal.elem n => do
    let s ← getSt
    pure (s.dom.byClass n c).head?
  | _ => throwE (Err.typeError "getElementsByClassName of a non-element value")

/-- The short-circuiting or-chain over strings, where the empty string is
the falsy localization miss. -/
def strOr (a b : String) : String := if a = "" then b else a

/-- The MESSAGE_LEVEL object of MessageLevel.js: string property names
mapped to the level symbols. -/
def MESSAGE_LEVEL : List (String × JsVal) :=
  [("ERROR", JsVal.sym Sym.ERROR),
   ("WARN", JsVal.sym Sym.WARN),
   ("INFO", JsVal.sym Sym.INFO),
   ("LOADING", JsVal.sym Sym.LOADING),
   ("SUCCESS", JsVal.sym Sym.SUCCESS)]

/-- Property access on a string-keyed object: an absent name yields
undefined. -/
def objGet (o : List (String × JsVal)) (k : String) : JsVal :=
  (alookup o k).getD JsVal.undef

namespace MessageRegister

/-- The frozen HOOK_TEMPLATE object (MessageRegister.js 18-24): the five
HOOK_TYPE symbols, each mapped to null. -/
def HOOK_TEMPLATE : Bundle :=
  [(JsKey.sym Sym.SHOW, JsVal.jsnull),
   (JsKey.sym Sym.HIDE, JsVal.jsnull),
   (JsKey.sym Sym.DISMISS_START, JsVal.jsnull),
   (JsKey.sym Sym.DISMISS_END, JsVal.jsnull),
   (JsKey.sym Sym.ACTION_BUTTON, JsVal.jsnull)]

/-- getCustomMessageType (MessageRegister.js 72-80): requires the
message-box class, then uses the element id as the message type.  Member
access on a non-element raises a TypeError, as in the source where the
argument is null or undefined. -/
def getCustomMessageType (elMessage : JsVal) : M JsVal :=
  match elMessage with
  | JsVal.elem n => do
    let s ← getSt
    match s.dom.find? n with
    | some e =>
      if e.classes.contains "message-box" then pure (JsVal.str e.idAttr)
      else throwE (Err.jsError "message element is no real message box")
    | none => throwE (Err.typeError "node is not part of the document model")
  | _ => throwE (Err.typeError "classList of a non-element value")

/-- The elementByType.keys().find callback chain of
getMessageTypeFromElement (MessageRegister.js 92-99): walk the entries in
insertion order and return the first type whose stored element is
structurally equal (isEqualNode) to the argument.  A stored value without
an isEqualNode method raises; isEqualNode against a non-node argument is
false. -/
def findTypeByNode (d : Dom) (elMessage : JsVal) : List (JsVal × JsVal) → Except Err (Option JsVal)
  | [] => Except.ok none
  | (t, v) :: rest =>
    match v with
    | JsVal.elem b =>
      match elMessage with
      | JsVal.elem a =>
        if d.isEqualNode b a then Except.ok (some t) else findTypeByNode d elMessage rest
      | _ => findTypeByNode d elMessage rest
    | _ => Except.error (Err.typeError "stored value has no isEqualNode method")

/-- getMessageTypeFromElement (MessageRegister.js 91-107). -/
def getMessageTypeFromElement (elMessage : JsVal) : M JsVal := do
  let s ← getSt
  match findTypeByNode s.dom elMessage s.elementByType with
  | Except.error e => throwE e
  | Except.ok (some t) => pure t
  | Except.ok none => getCustomMessageType elMessage

/-- getElementFromMessageType (MessageRegister.js 125-144): an element
argument is a custom message (type = its id); otherwise the type must be
a key of elementByType, or an Error is thrown. -/
def getElementFromMessageType (messagetype : JsVal) : M (JsVal × JsVal × Bool) :=
  match messagetype with
  | JsVal.elem n => do
    let mt ← getCustomMessageType (JsVal.elem n)
    pure (mt, JsVal.elem n, true)
  | _ => do
    let s ← getSt
    match alookup s.elementByType messagetype with
    | some el => pure (messagetype, el, false)
    | none => throwE (Err.jsError "message type is or belongs to an unknown element")

/-- One pass through the body of runHook (MessageRegister.js 159-170)
for a fixed pair: hooks.get(messagetype).hooktype.  The member access
uses the literal property name hooktype, so whatever hook type was
requested, the same (never written) property is read; when the hooks Map
has no entry for the message type, the read is performed on undefined
and raises a TypeError. -/
def runHookRead (bundle : Bundle) (param : JsVal) : M Unit :=
  match alookup bundle (JsKey.str "hooktype") with
  | none => pure ()
  | some JsVal.jsnull => pure ()
  | some JsVal.undef => pure ()
  | some (JsVal.fn f) => emit (Ev.invoke f param)
  | some _ => throwE (Err.typeError "hook is not a function")

def runHookStep (messagetype hooktype param : JsVal) : M Unit := do
  emit (Ev.dispatch messagetype hooktype)
  let s ← getSt
  match alookup s.hooksMap messagetype with
  | none => throwE (Err.typeError "cannot read property hooktype of undefined")
  | some none => throwE (Err.typeError "cannot read property hooktype of undefined")
  | some (some bundle) => runHookRead bundle param

/-- runHook (MessageRegister.js 159-170): when the hook type is not
GLOBAL_HOOK_ID the function first recurses with GLOBAL_HOOK_ID passed as
the hook type while keeping the same message type, then runs its own
body; the single level of recursion is unrolled here. -/
def runHook (messagetype hooktype param : JsVal) : M Unit :=
  if hooktype = JsVal.sym Sym.GLOBAL then
    runHookStep messagetype hooktype param
  else do
    runHookStep messagetype (JsVal.sym Sym.GLOBAL) param
    runHookStep messagetype hooktype param

/-- The body of hideMessage for a non-null argument
(MessageRegister.js 429-443).  Note that the runHook call passes the
original argument, which in the dismiss flow is the element itself, not
a message type. -/
def hideSingle (messagetype : JsVal) : M Unit := do
  let r ← getElementFromMessageType messagetype
  let elMessage := r.2.1
  let elDismissIcon ← getFirstByClass elMessage "icon-dismiss"
  classAddM elMessage "invisible"
  match elDismissIcon with
  | some i => classAddM (JsVal.elem i) "invisible"
  | none => pure ()
  emit (Ev.log "message is hidden")
  runHook messagetype (JsVal.sym Sym.HIDE) JsVal.undef

/-- hideMessage (MessageRegister.js 417-444).  For a null or undefined
argument the code iterates elementByType with Map.prototype.forEach,
whose callback receives the stored VALUE as its first argument, so the
recursive call gets the element, which takes the non-null branch
(hideSingle).  A stored null or undefined value would recurse into the
hide-all branch forever in JavaScript; states considered here only store
elements, for which this definition is exact. -/
def hideMessage (messagetype : JsVal) : M Unit :=
  if messagetype = JsVal.jsnull ∨ messagetype = JsVal.undef then do
    let s ← getSt
    s.elementByType.forM (fun p => hideSingle p.2)
  else hideSingle messagetype

/-- A DOM event as seen by the two listener functions. -/
structure Event where
  type : String
  target : JsVal
  currentTarget : JsVal
  deriving DecidableEq, Repr

/-- dismissMessage (MessageRegister.js 184-223).  The param objects
passed to runHook contain the message element and the event; the model
passes the element. -/
def dismissMessage (event : Event) : M Unit := do
  if event.type = "click" then do
    let elDismissIcon := event.target
    let elMessage ← parentNodeOf elDismissIcon
    let messagetype ← getMessageTypeFromElement elMessage
    let isBox ← classContainsM elMessage "message-box"
    if !isBox then pure ()
    else do
      classAddM elMessage "fade-hide"
      addListenerM elMessage "transitionend" Handler.dismissMessage
      runHook messagetype (JsVal.str "dismissStart") elMessage
      emit (Ev.log "message is dismissed")
  else if event.type = "transitionend" then do
    let elMessage := event.target
    let messagetype ← getMessageTypeFromElement elMessage
    hideMessage elMessage
    runHook messagetype (JsVal.str "dismissEnd") elMessage
    removeListenerM elMessage "transitionend" Handler.dismissMessage
  else pure ()

/-- actionButtonClicked (MessageRegister.js 233-246). -/
def actionButtonClicked (event : Event) : M Unit := do
  let elActionButtonLink := event.currentTarget
  let elMessage ← parentNodeOf elActionButtonLink
  let messagetype ← getMessageTypeFromElement elMessage
  emit (Ev.log "action button clicked")
  runHook messagetype (JsVal.str "actionButton") elMessage

/-- The object literal installed for a custom message
(MessageRegister.js 317-321). -/
def freshCustomBundle : Bundle :=
  [(JsKey.str "show", JsVal.jsnull),
   (JsKey.str "hide", JsVal.jsnull),
   (JsKey.str "actionButton", JsVal.jsnull)]

/-- The lazy hook-object setup for custom messages
(MessageRegister.js 314-323): hooks[messagetype] is an own property of
the Map object, not a Map entry. -/
def setupCustomHooks (messagetype : JsVal) (isCustomMessage : Bool) : M Unit :=
  if isCustomMessage then do
    let s ← getSt
    if (alookup s.hooksProps (valToKey messagetype)).isNone then
      modifySt (fun st =>
        { st with hooksProps := aset st.hooksProps (valToKey messagetype) freshCustomBundle })
    else pure ()
  else pure ()

/-- The assignment hooks[messagetype].actionButton = v
(MessageRegister.js 379 and 387): a property read on the Map object
followed by a member write; for a type that never went through the
custom-message setup the read yields undefined and the write raises a
TypeError. -/
def setActionButtonProp (messagetype v : JsVal) : M Unit := do
  let s ← getSt
  match alookup s.hooksProps (valToKey messagetype) with
  | some bundle =>
    modifySt (fun st =>
      { st with hooksProps := aset st.hooksProps (valToKey messagetype) (aset bundle (JsKey.str "actionButton") v) })
  | none => throwE (Err.typeError "cannot set actionButton of undefined")

/-- The dismiss-icon visibility step (MessageRegister.js 368-373). -/
def applyDismissIconVisibility (elDismissIcon : Option NodeId) (isDismissable : Bool) : M Unit :=
  match elDismissIcon with
  | some icon =>
    if isDismissable then classRemoveM (JsVal.elem icon) "invisible"
    else classAddM (JsVal.elem icon) "invisible"
  | none => pure ()

/-- The callback-or-link half of the action-button step
(MessageRegister.js 377-388): a callable action is stored as the
actionButton slot of the hook property object and the link target is
removed; a non-callable action becomes the link target and the stored
slot is cleared. -/
def applyActionButtonAction (messagetype baction : JsVal) (link : NodeId) : M Unit :=
  if isFunction baction then do
    setActionButtonProp messagetype baction
    removeAttrM (JsVal.elem link) "href"
  else do
    setAttrM (JsVal.elem link) "href"
      (match baction with | JsVal.str u => u | _ => "about:blank")
    setActionButtonProp messagetype JsVal.jsnull

/-- The action-button step (MessageRegister.js 376-394). -/
def applyActionButton (messagetype : JsVal) (actionButton : Option (String × JsVal))
    (elActionButton : Option NodeId) (elActionButtonLink : JsVal) : M Unit :=
  match actionButton, elActionButton, elActionButtonLink with
  | some (btext, baction), some ab, JsVal.elem link => do
    applyActionButtonAction messagetype baction link
    let s ← getSt
    setTextM (JsVal.elem ab) (strOr (s.i18n [JsVal.str btext]) btext)
    classRemoveM (JsVal.elem ab) "invisible"
  | _, some ab, _ => classAddM (JsVal.elem ab) "invisible"
  | _, none, _ => pure ()

/-- The localization step (MessageRegister.js 360-366): re-prepend the
main message, ask the localization service, fall back to the raw string
and then to the generic failure key, and write the result into the first
message-text descendant; a missing text slot raises a TypeError. -/
def applyMainMessage (elMessage : JsVal) (mainMessage : Option String)
    (args : List JsVal) : M Unit :=
  match mainMessage with
  | none => pure ()
  | some mm => do
    let s ← getSt
    let slot ← getFirstByClass elMessage "message-text"
    match slot with
    | some n =>
      setTextM (JsVal.elem n)
        (strOr (s.i18n (JsVal.str mm :: args)) (strOr mm (s.i18n [JsVal.str "errorShowingMessage"])))
    | none => throwE (Err.typeError "cannot set textContent of undefined")

/-- Positional parsing of the variadic tail (MessageRegister.js 344-357):
an optional leading string, an optional boolean, then an optional object
carrying both a text and an action field.  The third check reads
args[0].text, which raises a TypeError when args[0] is null. -/
def parseTail (args : List JsVal) :
    Except Err (Option String × Bool × Option (String × JsVal) × List JsVal) :=
  let p1 := match args with
    | JsVal.str m :: rest => (some m, rest)
    | _ => (none, args)
  let p2 := match p1.2 with
    | JsVal.bool b :: rest => (b, rest)
    | _ => (false, p1.2)
  match p2.2 with
  | [] => Except.ok (p1.1, p2.1, none, p2.2)
  | JsVal.undef :: _ => Except.ok (p1.1, p2.1, none, p2.2)
  | JsVal.jsnull :: _ => Except.error (Err.typeError "cannot read property text of null")
  | JsVal.actionBtn t a :: rest => Except.ok (p1.1, p2.1, some (t, a), rest)
  | _ :: _ => Except.ok (p1.1, p2.1, none, p2.2)

/-- elActionButton.parentNode when the button exists, null otherwise
(MessageRegister.js 328-331). -/
def getLinkOf (elActionButton : Option NodeId) : M JsVal :=
  match elActionButton with
  | some ab => parentNodeOf (JsVal.elem ab)
  | none => pure JsVal.jsnull

/-- The custom-listener block of showMessage (MessageRegister.js
334-337), guarded by messagetype instanceof HTMLElement — dead code,
because getElementFromMessageType already replaced a custom element by
its id string. -/
def installCustomListeners (messagetype : JsVal) (elDismissIcon : Option NodeId)
    (elActionButtonLink : JsVal) : M Unit :=
  match messagetype with
  | JsVal.elem _ => do
    addListenerM (optToVal elDismissIcon) "click" Handler.dismissMessage
    addListenerM elActionButtonLink "click" Handler.actionButtonClicked
  | _ => pure ()

/-- The body of showMessage after the message type has been resolved
(MessageRegister.js 314-403), in source order: custom hook setup, child
element lookups, the dead custom-listener block, the late
missing-element check, positional parsing, localization, dismiss-icon
visibility, action button, un-hiding, and finally the Show hook
dispatch. -/
def showMessageCore (messagetype elMessage : JsVal) (isCustomMessage : Bool)
    (args : List JsVal) : M Unit := do
  setupCustomHooks messagetype isCustomMessage
  let elDismissIcon ← getFirstByClass elMessage "icon-dismiss"
  let elActionButton ← getFirstByClass elMessage "message-action-button"
  let elActionButtonLink ← getLinkOf elActionButton
  installCustomListeners messagetype elDismissIcon elActionButtonLink
  if isFalsy elMessage then
    emit (Ev.log "The message could not be shown, because the DOM element is missing.")
  else
    match parseTail args with
    | Except.error e => throwE e
    | Except.ok (mainMessage, isDismissable, actionButton, argsRest) => do
      applyMainMessage elMessage mainMessage argsRest
      applyDismissIconVisibility elDismissIcon isDismissable
      applyActionButton messagetype actionButton elActionButton elActionButtonLink
      classRemoveM elMessage "invisible"
      classRemoveM elMessage "fade-hide"
      runHook messagetype (JsVal.sym Sym.SHOW) JsVal.undef

/-- The console-logging step of showMessage (MessageRegister.js
304-309). -/
def logCall (args : List JsVal) : M Unit :=
  if (match args.headD JsVal.undef with | JsVal.elem _ => true | _ => false) then
    emit (Ev.log "logInfo arguments")
  else
    emit (Ev.log "log arguments")

/-- showMessage (MessageRegister.js 298-404).  The no-parameter guard
tests arguments.length < 0, which can never hold, so the guard is dead
and a missing first argument flows as undefined into
getElementFromMessageType. -/
def showMessage (args : List JsVal) : M Unit :=
  if args.length < 0 then
    emit (Ev.log "MessageHandler.showMessage has been called without parameters")
  else do
    logCall args
    let r ← getElementFromMessageType (args.headD JsVal.undef)
    showMessageCore r.1 r.2.1 r.2.2 args.tail

/-- setHook (MessageRegister.js 490-495).  The stored bundle is read but
the assignment targets hooktype[hooktype]: for the Symbol (or any other
primitive) hook types the module uses, a strict-mode property creation
on a primitive raises a TypeError and nothing is stored; for an object
hook type the expando lands on that object and hooks.set rewrites the
entry with the unchanged bundle. -/
def setHook (messagetype hooktype hookFunction : JsVal) : M Unit := do
  let s ← getSt
  let hook := alookup s.hooksMap messagetype
  match hooktype with
  | JsVal.elem _ =>
    modifySt (fun st => { st with hooksMap := aset st.hooksMap messagetype (hook.getD none) })
  | JsVal.fn _ =>
    modifySt (fun st => { st with hooksMap := aset st.hooksMap messagetype (hook.getD none) })
  | JsVal.actionBtn _ _ =>
    modifySt (fun st => { st with hooksMap := aset st.hooksMap messagetype (hook.getD none) })
  | _ => throwE (Err.typeError "cannot create property on a primitive hook type")

/-- registerMessageType (MessageRegister.js 508-528).  Its first
statement calls elementByType.add, but Map has no add method (only set),
so every call raises a TypeError before any state is changed and neither
the maps nor the event listeners are ever installed. -/
def registerMessageType (_messagetype _elElement _cssClass : JsVal) : M Unit :=
  throwE (Err.typeError "elementByType.add is not a function")

/-- init (MessageRegister.js 536-538): hooks.add is likewise not a
function. -/
def init : M Unit :=
  throwE (Err.typeError "hooks.add is not a function")

end MessageRegister

namespace MessageHandler

/-- The PREDEFINED_TYPES object (MessageHandler.js 6-27): a frozen object
whose keys are the five MESSAGE_LEVEL symbols, each holding the element
found by document.getElementById and a css class. -/
def PREDEFINED_TYPES (d : Dom) : List (JsKey × (JsVal × String)) :=
  [(JsKey.sym Sym.ERROR, (d.getElementById "messageError", "error")),
   (JsKey.sym Sym.WARN, (d.getElementById "messageWarning", "warning")),
   (JsKey.sym Sym.INFO, (d.getElementById "messageInfo", "info")),
   (JsKey.sym Sym.SUCCESS, (d.getElementById "messageSuccess", "success")),
   (JsKey.sym Sym.LOADING, (d.getElementById "messageLoading", "info"))]

/-- Object.keys: only string-keyed enumerable own properties; symbol keys
are not returned. -/
def objectKeys {α : Type} (o : List (JsKey × α)) : List String :=
  o.filterMap (fun p => match p.1 with | JsKey.str s => some s | _ => none)

def hideWarning : M Unit := MessageRegister.hideMessage (objGet MESSAGE_LEVEL "WARN")

def hideInfo : M Unit := MessageRegister.hideMessage (objGet MESSAGE_LEVEL "INFO")

def hideLoading : M Unit := MessageRegister.hideMessage (objGet MESSAGE_LEVEL "LOADING")

def hideSuccess : M Unit := MessageRegister.hideMessage (objGet MESSAGE_LEVEL "SUCCESS")

/-- showError (MessageHandler.js 87-90): unshift MESSAGE_LEVEL.ERROR and
forward. -/
def showError (args : List JsVal) : M Unit :=
  MessageRegister.showMessage (objGet MESSAGE_LEVEL "ERROR" :: args)

/-- showWarning (MessageHandler.js 104-107). -/
def showWarning (args : List JsVal) : M Unit :=
  MessageRegister.showMessage (objGet MESSAGE_LEVEL "WARN" :: args)

/-- showInfo (MessageHandler.js 121-124). -/
def showInfo (args : List JsVal) : M Unit :=
  MessageRegister.showMessage (objGet MESSAGE_LEVEL "INFO" :: args)

/-- showLoading (MessageHandler.js 138-141): the source reads
MESSAGE_LEVEL.LOADDING, a property name that does not exist, so undefined
is prepended instead of the LOADING symbol. -/
def showLoading (args : List JsVal) : M Unit :=
  MessageRegister.showMessage (objGet MESSAGE_LEVEL "LOADDING" :: args)

/-- showSuccess (MessageHandler.js 155-158). -/
def showSuccess (args : List JsVal) : M Unit :=
  MessageRegister.showMessage (objGet MESSAGE_LEVEL "SUCCESS" :: args)

/-- The facade setHook (MessageHandler.js 175-178): two registry setHook
calls, for the Show and the Hide slot. -/
def setHook (messagetype hookShown hookHidden : JsVal) : M Unit := do
  MessageRegister.setHook messagetype (JsVal.sym Sym.SHOW) hookShown
  MessageRegister.setHook messagetype (JsVal.sym Sym.HIDE) hookHidden

/-- setDismissHooks (MessageHandler.js 194-197). -/
def setDismissHooks (startHook endHook : JsVal) : M Unit := do
  MessageRegister.setHook (JsVal.sym Sym.GLOBAL) (JsVal.sym Sym.DISMISS_START) startHook
  MessageRegister.setHook (JsVal.sym Sym.GLOBAL) (JsVal.sym Sym.DISMISS_END) endHook

/-- init (MessageHandler.js 205-212): iterates
Object.keys(PREDEFINED_TYPES).  The object is keyed by the five
MESSAGE_LEVEL symbols, and Object.keys never returns symbol keys, so the
iteration runs over the empty list and the loop body (which destructures
a string and would call registerMessageType with undefined pieces) never
executes. -/
def init : M Unit := do
  let s ← getSt
  (objectKeys (PREDEFINED_TYPES s.dom)).forM
    (fun _key => MessageRegister.registerMessageType JsVal.undef JsVal.undef JsVal.undef)

end MessageHandler

/-! Concrete fixture states used to evaluate the embedded code, shaped
like the markup the module expects: a message box element with a
dismiss-icon child and a message-text child. -/

/-- The Error message box: node 0, children 1 (dismiss icon) and 2 (text
slot). -/
def errorBox : ElemSt :=
  { idAttr := "messageError", classes := ["message-box"], text := "",
    parent := none, children := [1, 2], listeners := [], attrs := [] }

def dismissIconEl : ElemSt :=
  { idAttr := "", classes := ["icon-dismiss", "invisible"], text := "",
    parent := some 0, children := [], listeners := [], attrs := [] }

def textSlotEl : ElemSt :=
  { idAttr := "", classes := ["message-text"], text := "old",
    parent := some 0, children := [], listeners := [], attrs := [] }

def dom0 : Dom := ⟨[(0, errorBox), (1, dismissIconEl), (2, textSlotEl)]⟩

/-- The constant localization oracle that always misses. -/
def i18nMiss : List JsVal → String := fun _ => ""

/-- Error registered, hooks Map empty (the only content the broken
registration paths can ever produce). -/
def st0 : St :=
  { dom := dom0,
    elementByType := [(JsVal.sym Sym.ERROR, JsVal.elem 0)],
    styleClassByType := [(JsVal.sym Sym.ERROR, JsVal.str "error")],
    hooksMap := [], hooksProps := [], i18n := i18nMiss }

/-- Like st0, with hook bundles present: a Show hook stored for the
Error type and a Show hook stored in the global bundle, exactly where the
intended design would read them. -/
def stHooks : St :=
  { st0 with hooksMap :=
      [(JsVal.sym Sym.ERROR, some [(JsKey.sym Sym.SHOW, JsVal.fn 7)]),
       (JsVal.sym Sym.GLOBAL, some [(JsKey.sym Sym.SHOW, JsVal.fn 8)])] }

/-- Like st0, with dismiss hooks stored: DismissStart for the Error type
and DismissEnd in the global bundle. -/
def stDismiss : St :=
  { st0 with hooksMap :=
      [(JsVal.sym Sym.ERROR, some [(JsKey.sym Sym.DISMISS_START, JsVal.fn 9)]),
       (JsVal.sym Sym.GLOBAL, some [(JsKey.sym Sym.DISMISS_END, JsVal.fn 10)])] }

/-- A Loading message box for the showLoading claim. -/
def loadingBox : ElemSt :=
  { idAttr := "messageLoading", classes := ["message-box"], text := "",
    parent := none, children := [], listeners := [], attrs := [] }

/-- Error and Loading both registered. -/
def stLoading : St :=
  { st0 with
    dom := ⟨[(0, errorBox), (1, dismissIconEl), (2, textSlotEl), (3, loadingBox)]⟩,
    elementByType := [(JsVal.sym Sym.ERROR, JsVal.elem 0), (JsVal.sym Sym.LOADING, JsVal.elem 3)] }

/-- Two distinct custom-style message boxes with identical structural
content (Node.isEqualNode considers them equal). -/
def twinBox : ElemSt :=
  { idAttr := "customMsg", classes := ["message-box"], text := "",
    parent := none, children := [], listeners := [], attrs := [] }

/-- Error bound to node 10 and Warn bound to node 11, where the two
nodes are structurally equal twins. -/
def stTwins : St :=
  { dom := ⟨[(10, twinBox), (11, twinBox)]⟩,
    elementByType := [(JsVal.sym Sym.ERROR, JsVal.elem 10), (JsVal.sym Sym.WARN, JsVal.elem 11)],
    styleClassByType := [], hooksMap := [], hooksProps := [], i18n := i18nMiss }

/-- st0 with an empty hook bundle stored for Error, so the broken hook
dispatch completes without raising and showMessage runs to the end. -/
def stShowOk : St :=
  { st0 with hooksMap := [(JsVal.sym Sym.ERROR, some [])] }

/-- A dismiss in progress: the box carries fade-hide and the
transitionend listener registered by the dismiss click, the dismiss icon
is visible. -/
def fadingBox : ElemSt :=
  { idAttr := "messageError", classes := ["message-box", "fade-hide"], text := "",
    parent := none, children := [1, 2],
    listeners := [("transitionend", Handler.dismissMessage)], attrs := [] }

def visibleIconEl : ElemSt :=
  { dismissIconEl with classes := ["icon-dismiss"] }

def stMidDismiss : St :=
  { dom := ⟨[(0, fadingBox), (1, visibleIconEl), (2, textSlotEl)]⟩,
    elementByType := [(JsVal.sym Sym.ERROR, JsVal.elem 0)],
    styleClassByType := [(JsVal.sym Sym.ERROR, JsVal.str "error")],
    hooksMap := [(JsVal.sym Sym.ERROR, some [])], hooksProps := [], i18n := i18nMiss }

/-- A document holding all five predefined message elements, together
with an empty registry: the situation right before the facade init runs. -/
def domFive : Dom :=
  ⟨[(20, { errorBox with idAttr := "messageError" }),
    (21, { errorBox with idAttr := "messageWarning", children := [] }),
    (22, { errorBox with idAttr := "messageInfo", children := [] }),
    (23, { errorBox with idAttr := "messageSuccess", children := [] }),
    (24, { errorBox with idAttr := "messageLoading", children := [] }),
    (1, dismissIconEl), (2, textSlotEl)]⟩

def stFresh : St :=
  { dom := domFive, elementByType := [], styleClassByType := [],
    hooksMap := [], hooksProps := [], i18n := i18nMiss }

/-! Observations over traces and the state invariant the broken mutators
maintain. -/

/-- The hook callback invocations contained in a trace. -/
def invokes (tr : Trace) : Trace := tr.filter Ev.isInvoke

/-- A stored hooks-Map value is unremarkable: if it is a bundle, it has
no property with the literal name hooktype.  No code path of the module
ever writes such a property, so this holds for every reachable state. -/
def bundleOk : Option Bundle → Bool
  | none => true
  | some b => (alookup b (JsKey.str "hooktype")).isNone

/-- The state invariant: every bundle stored in the hooks Map lacks the
literal hooktype property. -/
def NoHooktypeProp (s : St) : Prop :=
  ∀ p ∈ s.hooksMap, bundleOk p.2 = true

instance (s : St) : Decidable (NoHooktypeProp s) :=
  List.decidableBAll _ s.hooksMap

/-- A computation is quiet when, from any state satisfying the
invariant, it preserves the invariant and its trace contains no hook
callback invocation. -/
def Quiet {α : Type} (m : M α) : Prop :=
  ∀ s, NoHooktypeProp s → NoHooktypeProp (m s).st ∧ invokes (m s).tr = []

/-- A computation that never changes the state. -/
def StId {α : Type} (m : M α) : Prop := ∀ s, (m s).st = s

/-- Listener monotonicity: a computation may add event listeners to a
document node but never removes one. -/
def LMono {α : Type} (m : M α) : Prop :=
  ∀ s n p e, s.dom.find? n = some e → p ∈ e.listeners →
    ∃ e2, (m s).st.dom.find? n = some e2 ∧ p ∈ e2.listeners

deriving instance DecidableEq for Except

/-! Helper lemmas about the monad, traces and lookups. -/

theorem bind_def {α β : Type} (m : M α) (k : α → M β) : m >>= k = M.bind m k := rfl

theorem pure_def {α : Type} (a : α) : (pure a : M α) = M.pure a := rfl

theorem bindOut {α β : Type} (m : M α) (k : α → M β) (s : St) :
    M.bind m k s =
      match (m s).res with
      | Except.error e => ⟨Except.error e, (m s).st, (m s).tr⟩
      | Except.ok a => ⟨(k a (m s).st).res, (k a (m s).st).st, (m s).tr ++ (k a (m s).st).tr⟩ := rfl

theorem invokes_nil : invokes [] = [] := rfl

theorem invokes_append (a b : Trace) : invokes (a ++ b) = invokes a ++ invokes b :=
  List.filter_append ..

theorem alookup_mem {α β : Type} [DecidableEq α] {l : List (α × β)} {k : α} {b : β}
    (h : alookup l k = some b) : (k, b) ∈ l := by
  induction l with
  | nil => exact absurd h (by simp [alookup])
  | cons p t ih =>
    obtain ⟨a, v⟩ := p
    by_cases hak : a = k
    · subst hak
      have : some v = some b := by simpa [alookup] using h
      cases this
      exact List.mem_cons_self ..
    · have ht : alookup t k = some b := by simpa [alookup, hak] using h
      exact List.mem_cons_of_mem _ (ih ht)

theorem isEqualNode_refl (d : Dom) (n : NodeId) : d.isEqualNode n n = true := by
  simp [Dom.isEqualNode]

/-! The Quiet calculus: every operation of the module, run from a state
whose hook bundles lack the literal hooktype property (true of every
reachable state, since no code path ever writes that property), keeps
the invariant and never invokes a stored hook callback. -/

theorem quiet_pure {α : Type} (a : α) : Quiet (M.pure a) := fun _ hs => ⟨hs, rfl⟩

theorem quiet_pureI {α : Type} (a : α) : Quiet (pure a : M α) := quiet_pure a

theorem quiet_getSt : Quiet getSt := fun _ hs => ⟨hs, rfl⟩

theorem quiet_throwE {α : Type} (e : Err) : Quiet (@throwE α e) := fun _ hs => ⟨hs, rfl⟩

theorem quiet_emit (e : Ev) (h : e.isInvoke = false) : Quiet (emit e) :=
  fun _ hs => ⟨hs, by simp [emit, invokes, h]⟩

theorem quiet_emit_dispatch (a b : JsVal) : Quiet (emit (Ev.dispatch a b)) :=
  quiet_emit _ rfl

theorem quiet_emit_log (m : String) : Quiet (emit (Ev.log m)) :=
  quiet_emit _ rfl

theorem quiet_modify (f : St → St) (h : ∀ s, (f s).hooksMap = s.hooksMap) :
    Quiet (modifySt f) := by
  intro s hs
  refine ⟨?_, rfl⟩
  intro p hp
  rw [show (modifySt f s).st = f s from rfl] at hp
  exact hs p (by rw [h s] at hp; exact hp)

theorem quiet_bind {α β : Type} {m : M α} {k : α → M β}
    (hm : Quiet m) (hk : ∀ a, Quiet (k a)) : Quiet (M.bind m k) := by
  intro s hs
  have h1 := hm s hs
  rw [bindOut]
  cases hres : (m s).res with
  | error e => simpa using h1
  | ok a =>
    have h2 := hk a (m s).st h1.1
    refine ⟨h2.1, ?_⟩
    rw [invokes_append, h1.2, h2.2]
    rfl

theorem quiet_bindI {α β : Type} {m : M α} {k : α → M β}
    (hm : Quiet m) (hk : ∀ a, Quiet (k a)) : Quiet (m >>= k) := quiet_bind hm hk

/-- Binding the current state: the continuation receives a state that
satisfies the invariant, which lets branch decisions depend on it. -/
theorem quiet_bindSt {β : Type} {k : St → M β}
    (hk : ∀ a, NoHooktypeProp a → Quiet (k a)) : Quiet (getSt >>= k) := by
  intro s hs
  exact hk s hs s hs

theorem quiet_domModify (v : JsVal) (f : ElemSt → ElemSt) : Quiet (domModify v f) := by
  cases v
  case elem n =>
    apply quiet_bindI quiet_getSt
    intro a
    split
    · exact quiet_modify _ (fun _ => rfl)
    · exact quiet_throwE _
  all_goals exact quiet_throwE _

theorem quiet_classAddM (v : JsVal) (c : String) : Quiet (classAddM v c) :=
  quiet_domModify v _

theorem quiet_classRemoveM (v : JsVal) (c : String) : Quiet (classRemoveM v c) :=
  quiet_domModify v _

theorem quiet_addListenerM (v : JsVal) (ev : String) (h : Handler) :
    Quiet (addListenerM v ev h) := quiet_domModify v _

theorem quiet_removeListenerM (v : JsVal) (ev : String) (h : Handler) :
    Quiet (removeListenerM v ev h) := quiet_domModify v _

theorem quiet_setTextM (v : JsVal) (t : String) : Quiet (setTextM v t) :=
  quiet_domModify v _

theorem quiet_setAttrM (v : JsVal) (a t : String) : Quiet (setAttrM v a t) :=
  quiet_domModify v _

theorem quiet_removeAttrM (v : JsVal) (a : String) : Quiet (removeAttrM v a) :=
  quiet_domModify v _

theorem quiet_parentNodeOf (v : JsVal) : Quiet (parentNodeOf v) := by
  cases v
  case elem n =>
    apply quiet_bindI quiet_getSt
    intro a
    split
    · exact quiet_pureI _
    · exact quiet_throwE _
  all_goals exact quiet_throwE _

theorem quiet_getFirstByClass (v : JsVal) (c : String) : Quiet (getFirstByClass v c) := by
  cases v
  case elem n =>
    apply quiet_bindI quiet_getSt
    intro a
    exact quiet_pureI _
  all_goals exact quiet_throwE _

theorem quiet_classContainsM (v : JsVal) (c : String) : Quiet (classContainsM v c) := by
  cases v
  case elem n =>
    apply quiet_bindI quiet_getSt
    intro a
    split
    · exact quiet_pureI _
    · exact quiet_throwE _
  all_goals exact quiet_throwE _

theorem quiet_getCustomMessageType (v : JsVal) :
    Quiet (MessageRegister.getCustomMessageType v) := by
  cases v
  case elem n =>
    apply quiet_bindI quiet_getSt
    intro a
    split
    · split
      · exact quiet_pureI _
      · exact quiet_throwE _
    · exact quiet_throwE _
  all_goals exact quiet_throwE _

theorem quiet_getElementFromMessageType (v : JsVal) :
    Quiet (MessageRegister.getElementFromMessageType v) := by
  cases v
  case elem n =>
    apply quiet_bindI (quiet_getCustomMessageType _)
    intro _
    exact quiet_pureI _
  all_goals
    apply quiet_bindI quiet_getSt
    intro a
    split
    · exact quiet_pureI _
    · exact quiet_throwE _

theorem quiet_runHookRead (bundle : Bundle) (p : JsVal)
    (hb : alookup bundle (JsKey.str "hooktype") = none) :
    Quiet (MessageRegister.runHookRead bundle p) := by
  unfold MessageRegister.runHookRead
  rw [hb]
  exact quiet_pureI _

/-- The heart of the development: a single runHook pass never invokes a
stored callback, because the property it reads (the literal name
hooktype) is never present in a reachable bundle; a missing bundle makes
it raise instead. -/
theorem quiet_runHookStep (mt ht p : JsVal) : Quiet (MessageRegister.runHookStep mt ht p) := by
  apply quiet_bindI (quiet_emit_dispatch mt ht)
  intro _
  apply quiet_bindSt
  intro a ha
  cases hlook : alookup a.hooksMap mt with
  | none => exact quiet_throwE _
  | some ob =>
    cases ob with
    | none => exact quiet_throwE _
    | some bundle =>
      have hb : alookup bundle (JsKey.str "hooktype") = none := by
        have hmem := ha (mt, some bundle) (alookup_mem hlook)
        simpa [bundleOk, Option.isNone_iff_eq_none] using hmem
      exact quiet_runHookRead bundle p hb

theorem quiet_runHook (mt ht p : JsVal) : Quiet (MessageRegister.runHook mt ht p) := by
  unfold MessageRegister.runHook
  split
  · exact quiet_runHookStep mt ht p
  · exact quiet_bindI (quiet_runHookStep mt (JsVal.sym Sym.GLOBAL) p)
      (fun _ => quiet_runHookStep mt ht p)

theorem quiet_setupCustomHooks (mt : JsVal) (ic : Bool) :
    Quiet (MessageRegister.setupCustomHooks mt ic) := by
  unfold MessageRegister.setupCustomHooks
  split
  · apply quiet_bindI quiet_getSt
    intro a
    split
    · exact quiet_modify _ (fun _ => rfl)
    · exact quiet_pureI _
  · exact quiet_pureI _

theorem quiet_setActionButtonProp (mt v : JsVal) :
    Quiet (MessageRegister.setActionButtonProp mt v) := by
  apply quiet_bindI quiet_getSt
  intro a
  split
  · exact quiet_modify _ (fun _ => rfl)
  · exact quiet_throwE _

theorem quiet_applyDismissIconVisibility (icon : Option NodeId) (b : Bool) :
    Quiet (MessageRegister.applyDismissIconVisibility icon b) := by
  unfold MessageRegister.applyDismissIconVisibility
  split
  · split
    · exact quiet_classRemoveM _ _
    · exact quiet_classAddM _ _
  · exact quiet_pureI _

theorem quiet_applyActionButtonAction (mt baction : JsVal) (link : NodeId) :
    Quiet (MessageRegister.applyActionButtonAction mt baction link) := by
  unfold MessageRegister.applyActionButtonAction
  split
  · exact quiet_bindI (quiet_setActionButtonProp _ _) (fun _ => quiet_removeAttrM _ _)
  · exact quiet_bindI (quiet_setAttrM _ _ _) (fun _ => quiet_setActionButtonProp _ _)

theorem quiet_applyActionButton (mt : JsVal) (ab : Option (String × JsVal))
    (el : Option NodeId) (link : JsVal) :
    Quiet (MessageRegister.applyActionButton mt ab el link) := by
  unfold MessageRegister.applyActionButton
  split
  · apply quiet_bindI (quiet_applyActionButtonAction _ _ _)
    intro _
    apply quiet_bindI quiet_getSt
    intro a
    exact quiet_bindI (quiet_setTextM _ _) (fun _ => quiet_classRemoveM _ _)
  · exact quiet_classAddM _ _
  · exact quiet_pureI _

theorem quiet_applyMainMessage (el : JsVal) (mm : Option String) (args : List JsVal) :
    Quiet (MessageRegister.applyMainMessage el mm args) := by
  unfold MessageRegister.applyMainMessage
  split
  · exact quiet_pureI _
  · apply quiet_bindI quiet_getSt
    intro a
    apply quiet_bindI (quiet_getFirstByClass _ _)
    intro slot
    split
    · exact quiet_setTextM _ _
    · exact quiet_throwE _

theorem quiet_getLinkOf (el : Option NodeId) : Quiet (MessageRegister.getLinkOf el) := by
  unfold MessageRegister.getLinkOf
  split
  · exact quiet_parentNodeOf _
  · exact quiet_pureI _

theorem quiet_installCustomListeners (mt : JsVal) (icon : Option NodeId) (link : JsVal) :
    Quiet (MessageRegister.installCustomListeners mt icon link) := by
  unfold MessageRegister.installCustomListeners
  split
  · exact quiet_bindI (quiet_addListenerM _ _ _) (fun _ => quiet_addListenerM _ _ _)
  · exact quiet_pureI _

theorem quiet_showMessageCore (mt el : JsVal) (ic : Bool) (args : List JsVal) :
    Quiet (MessageRegister.showMessageCore mt el ic args) := by
  unfold MessageRegister.showMessageCore
  apply quiet_bindI (quiet_setupCustomHooks _ _)
  intro _
  apply quiet_bindI (quiet_getFirstByClass _ _)
  intro elDismissIcon
  apply quiet_bindI (quiet_getFirstByClass _ _)
  intro elActionButton
  apply quiet_bindI (quiet_getLinkOf _)
  intro elActionButtonLink
  apply quiet_bindI (quiet_installCustomListeners _ _ _)
  intro _
  split
  · exact quiet_emit_log _
  · split
    · exact quiet_throwE _
    · apply quiet_bindI (quiet_applyMainMessage _ _ _)
      intro _
      apply quiet_bindI (quiet_applyDismissIconVisibility _ _)
      intro _
      apply quiet_bindI (quiet_applyActionButton _ _ _ _)
      intro _
      apply quiet_bindI (quiet_classRemoveM _ _)
      intro _
      exact quiet_bindI (quiet_classRemoveM _ _) (fun _ => quiet_runHook _ _ _)

theorem quiet_logCall (args : List JsVal) : Quiet (MessageRegister.logCall args) := by
  unfold MessageRegister.logCall
  split
  · exact quiet_emit_log _
  · exact quiet_emit_log _

theorem quiet_showMessage (args : List JsVal) :
    Quiet (MessageRegister.showMessage args) := by
  unfold MessageRegister.showMessage
  split
  · exact quiet_emit_log _
  · apply quiet_bindI (quiet_logCall _)
    intro _
    apply quiet_bindI (quiet_getElementFromMessageType _)
    intro r
    exact quiet_showMessageCore _ _ _ _

/-! Success decomposition, state identity and listener monotonicity:
infrastructure for the analysis of a successful showMessage call. -/

theorem bind_ok {α β : Type} {m : M α} {k : α → M β} {s : St} {b : β}
    (h : (M.bind m k s).res = Except.ok b) :
    ∃ a, (m s).res = Except.ok a ∧ (k a (m s).st).res = Except.ok b ∧
      (M.bind m k s).st = (k a (m s).st).st := by
  rw [bindOut] at h ⊢
  cases hres : (m s).res with
  | error e => rw [hres] at h; simp at h
  | ok a => rw [hres] at h; exact ⟨a, rfl, h, rfl⟩

theorem bind_okI {α β : Type} {m : M α} {k : α → M β} {s : St} {b : β}
    (h : ((m >>= k) s).res = Except.ok b) :
    ∃ a, (m s).res = Except.ok a ∧ (k a (m s).st).res = Except.ok b ∧
      ((m >>= k) s).st = (k a (m s).st).st := bind_ok h

theorem alookup_cons {α β : Type} [DecidableEq α] (a : α) (b : β) (t : List (α × β)) (k : α) :
    alookup ((a, b) :: t) k = if a = k then some b else alookup t k := rfl

theorem find?_update_self (d : Dom) (n : NodeId) (f : ElemSt → ElemSt) :
    (d.update n f).find? n = (d.find? n).map f := by
  obtain ⟨l⟩ := d
  show alookup (l.map (fun p => if p.1 = n then (p.1, f p.2) else p)) n = (alookup l n).map f
  induction l with
  | nil => rfl
  | cons q t ih =>
    obtain ⟨a, b⟩ := q
    rw [List.map_cons]
    dsimp only
    by_cases hab : a = n
    · subst hab
      rw [if_pos rfl, alookup_cons, alookup_cons, if_pos rfl, if_pos rfl]
      rfl
    · rw [if_neg hab, alookup_cons, alookup_cons, if_neg hab, if_neg hab]
      exact ih

theorem find?_update_other (d : Dom) (n m : NodeId) (f : ElemSt → ElemSt) (h : n ≠ m) :
    (d.update m f).find? n = d.find? n := by
  obtain ⟨l⟩ := d
  show alookup (l.map (fun p => if p.1 = m then (p.1, f p.2) else p)) n = alookup l n
  induction l with
  | nil => rfl
  | cons q t ih =>
    obtain ⟨a, b⟩ := q
    rw [List.map_cons]
    dsimp only
    by_cases ham : a = m
    · subst ham
      have han : ¬ a = n := fun hc => h hc.symm
      rw [if_pos rfl, alookup_cons, alookup_cons, if_neg han, if_neg han]
      exact ih
    · rw [if_neg ham, alookup_cons, alookup_cons]
      by_cases han : a = n
      · rw [if_pos han, if_pos han]
      · rw [if_neg han, if_neg han]
        exact ih

theorem stid_bind {α β : Type} {m : M α} {k : α → M β}
    (hm : StId m) (hk : ∀ a, StId (k a)) : StId (M.bind m k) := by
  intro s
  rw [bindOut]
  cases hres : (m s).res with
  | error e => exact hm s
  | ok a =>
    show (k a (m s).st).st = s
    rw [hk a (m s).st]
    exact hm s

theorem stid_bindI {α β : Type} {m : M α} {k : α → M β}
    (hm : StId m) (hk : ∀ a, StId (k a)) : StId (m >>= k) := stid_bind hm hk

theorem stid_pure {α : Type} (a : α) : StId (M.pure a) := fun _ => rfl

theorem stid_pureI {α : Type} (a : α) : StId (pure a : M α) := stid_pure a

theorem stid_getSt : StId getSt := fun _ => rfl

theorem stid_emit (e : Ev) : StId (emit e) := fun _ => rfl

theorem stid_throwE {α : Type} (e : Err) : StId (@throwE α e) := fun _ => rfl

theorem stid_logCall (args : List JsVal) : StId (MessageRegister.logCall args) := by
  unfold MessageRegister.logCall
  split
  · exact stid_emit _
  · exact stid_emit _

theorem stid_getCustomMessageType (v : JsVal) :
    StId (MessageRegister.getCustomMessageType v) := by
  cases v
  case elem n =>
    apply stid_bindI stid_getSt
    intro a
    split
    · split
      · exact stid_pureI _
      · exact stid_throwE _
    · exact stid_throwE _
  all_goals exact stid_throwE _

theorem stid_getElementFromMessageType (v : JsVal) :
    StId (MessageRegister.getElementFromMessageType v) := by
  cases v
  case elem n =>
    apply stid_bindI (stid_getCustomMessageType _)
    intro _
    exact stid_pureI _
  all_goals
    apply stid_bindI stid_getSt
    intro a
    split
    · exact stid_pureI _
    · exact stid_throwE _

theorem stid_getFirstByClass (v : JsVal) (c : String) : StId (getFirstByClass v c) := by
  cases v
  case elem n =>
    apply stid_bindI stid_getSt
    intro a
    exact stid_pureI _
  all_goals exact stid_throwE _

theorem stid_parentNodeOf (v : JsVal) : StId (parentNodeOf v) := by
  cases v
  case elem n =>
    apply stid_bindI stid_getSt
    intro a
    split
    · exact stid_pureI _
    · exact stid_throwE _
  all_goals exact stid_throwE _

theorem stid_getLinkOf (el : Option NodeId) : StId (MessageRegister.getLinkOf el) := by
  unfold MessageRegister.getLinkOf
  split
  · exact stid_parentNodeOf _
  · exact stid_pureI _

theorem stid_runHookRead (bundle : Bundle) (p : JsVal) :
    StId (MessageRegister.runHookRead bundle p) := by
  unfold MessageRegister.runHookRead
  split
  · exact stid_pureI _
  · exact stid_pureI _
  · exact stid_pureI _
  · exact stid_emit _
  · exact stid_throwE _

theorem stid_runHookStep (mt ht p : JsVal) : StId (MessageRegister.runHookStep mt ht p) := by
  apply stid_bindI (stid_emit _)
  intro _
  apply stid_bindI stid_getSt
  intro a
  split
  · exact stid_throwE _
  · exact stid_throwE _
  · exact stid_runHookRead _ _

theorem stid_runHook (mt ht p : JsVal) : StId (MessageRegister.runHook mt ht p) := by
  unfold MessageRegister.runHook
  split
  · exact stid_runHookStep _ _ _
  · exact stid_bindI (stid_runHookStep _ _ _) (fun _ => stid_runHookStep _ _ _)

theorem lmono_of_stid {α : Type} {m : M α} (h : StId m) : LMono m :=
  fun s n p e he hp => ⟨e, by rw [h s]; exact he, hp⟩

theorem lmono_bind {α β : Type} {m : M α} {k : α → M β}
    (hm : LMono m) (hk : ∀ a, LMono (k a)) : LMono (M.bind m k) := by
  intro s n p e he hp
  rw [bindOut]
  obtain ⟨e2, he2, hp2⟩ := hm s n p e he hp
  cases hres : (m s).res with
  | error er => exact ⟨e2, he2, hp2⟩
  | ok a => exact hk a (m s).st n p e2 he2 hp2

theorem lmono_bindI {α β : Type} {m : M α} {k : α → M β}
    (hm : LMono m) (hk : ∀ a, LMono (k a)) : LMono (m >>= k) := lmono_bind hm hk

theorem lmono_pureI {α : Type} (a : α) : LMono (pure a : M α) := lmono_of_stid (stid_pureI a)

theorem lmono_throwE {α : Type} (e : Err) : LMono (@throwE α e) := lmono_of_stid (stid_throwE e)

theorem lmono_modifyDom (f : St → St) (h : ∀ s, (f s).dom = s.dom) : LMono (modifySt f) :=
  fun s n p e he hp => ⟨e, by rw [show (modifySt f s).st = f s from rfl, h s]; exact he, hp⟩

theorem domModify_elem_run (n : NodeId) (f : ElemSt → ElemSt) (s : St) :
    domModify (JsVal.elem n) f s =
      (match s.dom.find? n with
       | some _ => ⟨Except.ok (), { s with dom := s.dom.update n f }, []⟩
       | none => ⟨Except.error (Err.typeError "node is not part of the document model"), s, []⟩) := by
  cases h : s.dom.find? n <;>
    simp [domModify, bind_def, bindOut, getSt, modifySt, throwE, h]

theorem lmono_domModify (v : JsVal) (f : ElemSt → ElemSt)
    (hf : ∀ e q, q ∈ e.listeners → q ∈ (f e).listeners) : LMono (domModify v f) := by
  intro s n p e he hp
  cases v
  case elem m =>
    rw [domModify_elem_run]
    cases hm : s.dom.find? m with
    | none => exact ⟨e, he, hp⟩
    | some em =>
      by_cases hnm : n = m
      · subst hnm
        refine ⟨f e, ?_, hf e p hp⟩
        show (s.dom.update n f).find? n = some (f e)
        rw [find?_update_self, he]
        rfl
      · refine ⟨e, ?_, hp⟩
        show (s.dom.update m f).find? n = some e
        rw [find?_update_other s.dom n m f hnm]
        exact he
  all_goals exact ⟨e, he, hp⟩

theorem lmono_classAddM (v : JsVal) (c : String) : LMono (classAddM v c) :=
  lmono_domModify v _ (fun _ _ hq => hq)

theorem lmono_classRemoveM (v : JsVal) (c : String) : LMono (classRemoveM v c) :=
  lmono_domModify v _ (fun _ _ hq => hq)

theorem lmono_setTextM (v : JsVal) (t : String) : LMono (setTextM v t) :=
  lmono_domModify v _ (fun _ _ hq => hq)

theorem lmono_setAttrM (v : JsVal) (a t : String) : LMono (setAttrM v a t) :=
  lmono_domModify v _ (fun _ _ hq => hq)

theorem lmono_removeAttrM (v : JsVal) (a : String) : LMono (removeAttrM v a) :=
  lmono_domModify v _ (fun _ _ hq => hq)

theorem lmono_addListenerM (v : JsVal) (ev : String) (h : Handler) :
    LMono (addListenerM v ev h) := by
  apply lmono_domModify
  intro e q hq
  show q ∈ (if e.listeners.contains (ev, h) then e.listeners else e.listeners ++ [(ev, h)])
  split
  · exact hq
  · exact List.mem_append_left _ hq

theorem lmono_setupCustomHooks (mt : JsVal) (ic : Bool) :
    LMono (MessageRegister.setupCustomHooks mt ic) := by
  unfold MessageRegister.setupCustomHooks
  split
  · apply lmono_bindI (lmono_of_stid stid_getSt)
    intro a
    split
    · exact lmono_modifyDom _ (fun _ => rfl)
    · exact lmono_pureI _
  · exact lmono_pureI _

theorem lmono_setActionButtonProp (mt v : JsVal) :
    LMono (MessageRegister.setActionButtonProp mt v) := by
  apply lmono_bindI (lmono_of_stid stid_getSt)
  intro a
  split
  · exact lmono_modifyDom _ (fun _ => rfl)
  · exact lmono_throwE _

theorem lmono_installCustomListeners (mt : JsVal) (icon : Option NodeId) (link : JsVal) :
    LMono (MessageRegister.installCustomListeners mt icon link) := by
  unfold MessageRegister.installCustomListeners
  split
  · exact lmono_bindI (lmono_addListenerM _ _ _) (fun _ => lmono_addListenerM _ _ _)
  · exact lmono_pureI _

theorem lmono_applyMainMessage (el : JsVal) (mm : Option String) (args : List JsVal) :
    LMono (MessageRegister.applyMainMessage el mm args) := by
  unfold MessageRegister.applyMainMessage
  split
  · exact lmono_pureI _
  · apply lmono_bindI (lmono_of_stid stid_getSt)
    intro a
    apply lmono_bindI (lmono_of_stid (stid_getFirstByClass _ _))
    intro slot
    split
    · exact lmono_setTextM _ _
    · exact lmono_throwE _

theorem lmono_applyDismissIconVisibility (icon : Option NodeId) (b : Bool) :
    LMono (MessageRegister.applyDismissIconVisibility icon b) := by
  unfold MessageRegister.applyDismissIconVisibility
  split
  · split
    · exact lmono_classRemoveM _ _
    · exact lmono_classAddM _ _
  · exact lmono_pureI _

theorem lmono_applyActionButtonAction (mt baction : JsVal) (link : NodeId) :
    LMono (MessageRegister.applyActionButtonAction mt baction link) := by
  unfold MessageRegister.applyActionButtonAction
  split
  · exact lmono_bindI (lmono_setActionButtonProp _ _) (fun _ => lmono_removeAttrM _ _)
  · exact lmono_bindI (lmono_setAttrM _ _ _) (fun _ => lmono_setActionButtonProp _ _)

theorem lmono_applyActionButton (mt : JsVal) (ab : Option (String × JsVal))
    (el : Option NodeId) (link : JsVal) :
    LMono (MessageRegister.applyActionButton mt ab el link) := by
  unfold MessageRegister.applyActionButton
  split
  · apply lmono_bindI (lmono_applyActionButtonAction _ _ _)
    intro _
    apply lmono_bindI (lmono_of_stid stid_getSt)
    intro a
    exact lmono_bindI (lmono_setTextM _ _) (fun _ => lmono_classRemoveM _ _)
  · exact lmono_classAddM _ _
  · exact lmono_pureI _

theorem not_mem_filter_ne (l : List String) (c : String) :
    c ∉ l.filter (fun x => x != c) := by
  intro h
  have h2 := (List.mem_filter.mp h).2
  simp at h2

theorem showMessage_run (args : List JsVal) :
    MessageRegister.showMessage args =
      (MessageRegister.logCall args >>= fun _ =>
        MessageRegister.getElementFromMessageType (args.headD JsVal.undef) >>= fun r =>
          MessageRegister.showMessageCore r.1 r.2.1 r.2.2 args.tail) := by
  unfold MessageRegister.showMessage
  rw [if_neg (by exact Nat.not_lt_zero _)]

/-- C1: showMessage, the registry-level primitive, triggers no Show hook
callback (global or type-specific): from any state whose stored bundles
lack the literal hooktype property — an invariant of every reachable
state, since no code path writes that property — a showMessage call
invokes no stored hook callback at all.  The final statement of the
function does dispatch runHook for the Show kind, but that dispatch
reads the never-written literal hooktype property and therefore runs no
callback. -/
theorem showMessage_triggers_no_show_hook (s : St) (args : List JsVal)
    (hs : NoHooktypeProp s) :
    invokes ((MessageRegister.showMessage args) s).tr = [] :=
  (quiet_showMessage args s hs).2

/-- Witness for C1 at a state that does store a Show hook for the Error
type: the call succeeds, the Show dispatch happens, and still no
callback is invoked. -/
theorem showMessage_triggers_no_show_hook_witness :
    (NoHooktypeProp stHooks ∧
     alookup stHooks.hooksMap (JsVal.sym Sym.ERROR)
       = some (some [(JsKey.sym Sym.SHOW, JsVal.fn 7)]) ∧
     Ev.dispatch (JsVal.sym Sym.ERROR) (JsVal.sym Sym.SHOW)
       ∈ ((MessageRegister.showMessage [JsVal.sym Sym.ERROR, JsVal.str "hi"]) stHooks).tr ∧
     ((MessageRegister.showMessage [JsVal.sym Sym.ERROR, JsVal.str "hi"]) stHooks).res
       = Except.ok ()) ∧
    invokes ((MessageRegister.showMessage [JsVal.sym Sym.ERROR, JsVal.str "hi"]) stHooks).tr = [] :=
  ⟨⟨by decide, by decide, by decide, by decide⟩,
   showMessage_triggers_no_show_hook stHooks [JsVal.sym Sym.ERROR, JsVal.str "hi"] (by decide)⟩

/-- C2: the claim says that after the facade init every one of the five
built-in levels is registered and resolves to its element.  In the code
the init loop iterates Object.keys of a Symbol-keyed object, which is
empty, so init changes nothing, registers nothing, and afterwards even
the Error level fails to resolve although its element is present in the
document. -/
theorem facade_init_registers_nothing :
    (∀ s : St, (MessageHandler.init s).st = s ∧ (MessageHandler.init s).res = Except.ok ()
      ∧ (MessageHandler.init s).tr = []) ∧
    (MessageHandler.init stFresh).st.elementByType = [] ∧
    (MessageRegister.getElementFromMessageType (JsVal.sym Sym.ERROR) (MessageHandler.init stFresh).st).res
      = Except.error (Err.jsError "message type is or belongs to an unknown element") :=
  ⟨fun _ => ⟨rfl, rfl, rfl⟩, by decide, by decide⟩

/-- C3: the claim says runHook first invokes the stored global hook for
the hook kind, then the type-specific hook, and silently skips unset
slots.  In the code the lookup reads a literal hooktype property, so
with a Show hook stored both for the Error type and in the global
bundle, runHook for (Error, Show) completes having invoked neither; and
on a state whose hooks Map has no entry for the type, runHook raises a
TypeError instead of skipping. -/
theorem runHook_invokes_no_stored_hook :
    (alookup stHooks.hooksMap (JsVal.sym Sym.ERROR)
        = some (some [(JsKey.sym Sym.SHOW, JsVal.fn 7)]) ∧
     alookup stHooks.hooksMap (JsVal.sym Sym.GLOBAL)
        = some (some [(JsKey.sym Sym.SHOW, JsVal.fn 8)]) ∧
     (MessageRegister.runHook (JsVal.sym Sym.ERROR) (JsVal.sym Sym.SHOW) JsVal.undef stHooks).res
        = Except.ok () ∧
     (MessageRegister.runHook (JsVal.sym Sym.ERROR) (JsVal.sym Sym.SHOW) JsVal.undef stHooks).tr
        = [Ev.dispatch (JsVal.sym Sym.ERROR) (JsVal.sym Sym.GLOBAL),
           Ev.dispatch (JsVal.sym Sym.ERROR) (JsVal.sym Sym.SHOW)]) ∧
    (MessageRegister.runHook (JsVal.sym Sym.ERROR) (JsVal.sym Sym.SHOW) JsVal.undef st0).res
      = Except.error (Err.typeError "cannot read property hooktype of undefined") := by
  decide

/-- C4: the claim says setHook stores the function as the callback for
the pair and leaves the rest of the registry unchanged.  In the code the
assignment targets hooktype[hooktype] where the hook type is a Symbol
primitive, so in strict mode every such call raises a TypeError and the
state, including the addressed hook slot, is left exactly as it was; the
function is never stored anywhere. -/
theorem setHook_raises_and_stores_nothing :
    ∀ s : St,
      (MessageRegister.setHook (JsVal.sym Sym.ERROR) (JsVal.sym Sym.SHOW) (JsVal.fn 3) s).res
        = Except.error (Err.typeError "cannot create property on a primitive hook type") ∧
      (MessageRegister.setHook (JsVal.sym Sym.ERROR) (JsVal.sym Sym.SHOW) (JsVal.fn 3) s).st = s ∧
      (MessageRegister.setHook (JsVal.sym Sym.ERROR) (JsVal.sym Sym.SHOW) (JsVal.fn 3) s).tr = [] :=
  fun _ => ⟨rfl, rfl, rfl⟩

/-- C5: the claim says showMessage with zero arguments or an unknown
type logs and returns normally without throwing.  In the code the
zero-argument guard tests arguments.length < 0, which never holds, so
the undefined first argument reaches getElementFromMessageType and the
call throws an Error to the caller; an unknown registered type throws
the same way.  (The registry state is indeed left unchanged.) -/
theorem showMessage_zero_args_throws :
    (MessageRegister.showMessage [] st0).res
      = Except.error (Err.jsError "message type is or belongs to an unknown element") ∧
    (MessageRegister.showMessage [] st0).st.dom = st0.dom ∧
    (MessageRegister.showMessage [] st0).st.elementByType = st0.elementByType ∧
    (MessageRegister.showMessage [] st0).st.hooksMap = st0.hooksMap ∧
    (MessageRegister.showMessage [JsVal.sym Sym.INFO, JsVal.str "x"] st0).res
      = Except.error (Err.jsError "message type is or belongs to an unknown element") := by
  decide

/-- C6: the claim says the dismiss click invokes DismissStart, the
transition-completion event hides the element, invokes DismissEnd and
removes the one-shot listener.  In the code the click phase completes
but invokes no stored hook (the dispatch reads a literal hooktype
property), and the completion phase raises a TypeError inside
hideMessage (runHook is called with the element as the hooks-Map key),
so DismissEnd is never dispatched, no callback ever runs, and the
transitionend listener is never removed. -/
theorem dismiss_completion_never_fires_hooks :
    alookup stDismiss.hooksMap (JsVal.sym Sym.GLOBAL)
      = some (some [(JsKey.sym Sym.DISMISS_END, JsVal.fn 10)]) ∧
    (MessageRegister.dismissMessage ⟨"click", JsVal.elem 1, JsVal.elem 1⟩ stDismiss).res
      = Except.ok () ∧
    ((MessageRegister.dismissMessage ⟨"click", JsVal.elem 1, JsVal.elem 1⟩ stDismiss).st.dom.find? 0).map ElemSt.listeners
      = some [("transitionend", Handler.dismissMessage)] ∧
    invokes (MessageRegister.dismissMessage ⟨"click", JsVal.elem 1, JsVal.elem 1⟩ stDismiss).tr = [] ∧
    (MessageRegister.dismissMessage ⟨"transitionend", JsVal.elem 0, JsVal.elem 0⟩
        (MessageRegister.dismissMessage ⟨"click", JsVal.elem 1, JsVal.elem 1⟩ stDismiss).st).res
      = Except.error (Err.typeError "cannot read property hooktype of undefined") ∧
    ((MessageRegister.dismissMessage ⟨"transitionend", JsVal.elem 0, JsVal.elem 0⟩
        (MessageRegister.dismissMessage ⟨"click", JsVal.elem 1, JsVal.elem 1⟩ stDismiss).st).st.dom.find? 0).map ElemSt.listeners
      = some [("transitionend", Handler.dismissMessage)] ∧
    invokes (MessageRegister.dismissMessage ⟨"transitionend", JsVal.elem 0, JsVal.elem 0⟩
        (MessageRegister.dismissMessage ⟨"click", JsVal.elem 1, JsVal.elem 1⟩ stDismiss).st).tr = [] ∧
    Ev.dispatch (JsVal.sym Sym.ERROR) (JsVal.str "dismissEnd")
      ∉ (MessageRegister.dismissMessage ⟨"transitionend", JsVal.elem 0, JsVal.elem 0⟩
          (MessageRegister.dismissMessage ⟨"click", JsVal.elem 1, JsVal.elem 1⟩ stDismiss).st).tr := by
  decide

/-- C7: the claim says each of the five facade entry points prepends its
level and forwards.  showError, showWarning, showInfo and showSuccess
do; showLoading reads the misspelt property MESSAGE_LEVEL.LOADDING,
which is undefined, so it forwards undefined instead of the LOADING
symbol and fails with an unknown-element Error even when the Loading
level is registered. -/
theorem showLoading_prepends_undefined :
    (∀ args, MessageHandler.showError args
        = MessageRegister.showMessage (JsVal.sym Sym.ERROR :: args)) ∧
    (∀ args, MessageHandler.showWarning args
        = MessageRegister.showMessage (JsVal.sym Sym.WARN :: args)) ∧
    (∀ args, MessageHandler.showInfo args
        = MessageRegister.showMessage (JsVal.sym Sym.INFO :: args)) ∧
    (∀ args, MessageHandler.showSuccess args
        = MessageRegister.showMessage (JsVal.sym Sym.SUCCESS :: args)) ∧
    (∀ args, MessageHandler.showLoading args
        = MessageRegister.showMessage (JsVal.undef :: args)) ∧
    objGet MESSAGE_LEVEL "LOADDING" = JsVal.undef ∧
    alookup stLoading.elementByType (JsVal.sym Sym.LOADING) = some (JsVal.elem 3) ∧
    (MessageHandler.showLoading [JsVal.str "x"] stLoading).res
      = Except.error (Err.jsError "message type is or belongs to an unknown element") :=
  ⟨fun _ => rfl, fun _ => rfl, fun _ => rfl, fun _ => rfl, fun _ => rfl,
   by decide, by decide, by decide⟩

/-- C8 counterexample: the round-trip claim fails.  In stTwins the Warn
level is registered with element 11, but because element 10 (registered
earlier for Error) is structurally equal to element 11, the
element-to-type lookup, which walks the registry in insertion order
comparing with isEqualNode, maps element 11 back to Error, not Warn. -/
theorem element_roundtrip_counterexample :
    alookup stTwins.elementByType (JsVal.sym Sym.WARN) = some (JsVal.elem 11) ∧
    (MessageRegister.getElementFromMessageType (JsVal.sym Sym.WARN) stTwins).res
      = Except.ok (JsVal.sym Sym.WARN, JsVal.elem 11, false) ∧
    stTwins.dom.isEqualNode 10 11 = true ∧
    (MessageRegister.getMessageTypeFromElement (JsVal.elem 11) stTwins).res
      = Except.ok (JsVal.sym Sym.ERROR) ∧
    JsVal.sym Sym.ERROR ≠ JsVal.sym Sym.WARN := by
  decide

theorem findTypeByNode_prefix (d : Dom) (e : NodeId) (t : JsVal) :
    ∀ l1 l2 : List (JsVal × JsVal),
      (∀ p ∈ l1, ∃ b, p.2 = JsVal.elem b) →
      (∀ p ∈ l1, ∀ b, p.2 = JsVal.elem b → d.isEqualNode b e = false) →
      MessageRegister.findTypeByNode d (JsVal.elem e) (l1 ++ (t, JsVal.elem e) :: l2)
        = Except.ok (some t) := by
  intro l1
  induction l1 with
  | nil =>
    intro l2 _ _
    simp [MessageRegister.findTypeByNode, isEqualNode_refl]
  | cons p rest ih =>
    intro l2 helems hne
    obtain ⟨t0, v0⟩ := p
    obtain ⟨b0, hb0⟩ := helems (t0, v0) (List.mem_cons_self ..)
    simp only at hb0
    subst hb0
    have hfalse : d.isEqualNode b0 e = false :=
      hne (t0, JsVal.elem b0) (List.mem_cons_self ..) b0 rfl
    rw [List.cons_append]
    simp only [MessageRegister.findTypeByNode, hfalse]
    exact ih l2 (fun q hq => helems q (List.mem_cons_of_mem _ hq))
      (fun q hq => hne q (List.mem_cons_of_mem _ hq))

theorem getElementFromMessageType_nonElem (s : St) (t : JsVal)
    (hne : ∀ n : NodeId, t ≠ JsVal.elem n) :
    MessageRegister.getElementFromMessageType t s =
      (match alookup s.elementByType t with
       | some el => ⟨Except.ok (t, el, false), s, []⟩
       | none => ⟨Except.error (Err.jsError "message type is or belongs to an unknown element"), s, []⟩) := by
  cases halook : alookup s.elementByType t <;>
    cases t <;>
      first
        | exact absurd rfl (hne _)
        | simp [MessageRegister.getElementFromMessageType, bind_def, bindOut, getSt,
            pure_def, M.pure, throwE, halook]

/-- C8 amended: for a message type t registered in the element table
with element e — the table splits as earlier entries, then the binding
(t, e), then arbitrary later entries — where t resolves to e, t is not
itself an element value, and no entry registered earlier than (t, e)
holds an element structurally equal (Node.isEqualNode) to e (earlier
values must be elements, since a non-element stored value makes the
lookup raise), the round trip holds: resolving t yields exactly e, and
resolving e back yields t.  Later entries are unconstrained: the reverse
lookup returns the first registered type whose element is structurally
equal to the queried element, hence the counterexample for a later
binding whose structural twin was registered first.  Custom types never
enter the element table at all. -/
theorem element_roundtrip_amended (s : St) (t : JsVal) (e : NodeId)
    (l1 l2 : List (JsVal × JsVal))
    (hsplit : s.elementByType = l1 ++ (t, JsVal.elem e) :: l2)
    (hl1elems : ∀ p ∈ l1, ∃ b, p.2 = JsVal.elem b)
    (hl1ne : ∀ p ∈ l1, ∀ b, p.2 = JsVal.elem b → s.dom.isEqualNode b e = false)
    (hlook : alookup s.elementByType t = some (JsVal.elem e))
    (hne : ∀ n : NodeId, t ≠ JsVal.elem n) :
    (MessageRegister.getElementFromMessageType t s).res = Except.ok (t, JsVal.elem e, false) ∧
    (MessageRegister.getMessageTypeFromElement (JsVal.elem e) s).res = Except.ok t := by
  constructor
  · rw [getElementFromMessageType_nonElem s t hne, hlook]
  · have hfind : MessageRegister.findTypeByNode s.dom (JsVal.elem e) s.elementByType
        = Except.ok (some t) := by
      rw [hsplit]
      exact findTypeByNode_prefix s.dom e t l1 l2 hl1elems hl1ne
    simp [MessageRegister.getMessageTypeFromElement, bind_def, bindOut, getSt, hfind,
      pure_def, M.pure]

/-- Witness for the amended C8, at the twins state and in exactly the
case the proviso covers: the earlier binding (Error, node 10) round
trips even though a structurally equal element (node 11, bound to Warn)
is registered later. -/
theorem element_roundtrip_amended_witness :
    (MessageRegister.getElementFromMessageType (JsVal.sym Sym.ERROR) stTwins).res
      = Except.ok (JsVal.sym Sym.ERROR, JsVal.elem 10, false) ∧
    (MessageRegister.getMessageTypeFromElement (JsVal.elem 10) stTwins).res
      = Except.ok (JsVal.sym Sym.ERROR) :=
  element_roundtrip_amended stTwins (JsVal.sym Sym.ERROR) 10
    [] [(JsVal.sym Sym.WARN, JsVal.elem 11)]
    (by decide)
    (fun p hp => absurd hp (List.not_mem_nil p))
    (fun p hp => absurd hp (List.not_mem_nil p))
    (by decide)
    (fun n h => JsVal.noConfusion h)

/-- C9: a boolean first variadic argument (with no string before it) is
consumed as the dismissable flag and not as message text.  First
conjunct, fully general: for every boolean and every remaining argument
list, the positional parser returns no main message and that boolean as
the flag.  Second conjunct: running showMessage this way on a registered
Error box completes, leaves the text slot untouched and makes the
dismiss icon visible exactly when the flag is true. -/
theorem boolean_arg_is_dismissable_flag :
    (∀ (b : Bool) (rest : List JsVal),
      (MessageRegister.parseTail (JsVal.bool b :: rest)).map (fun q => (q.1, q.2.1))
        = (MessageRegister.parseTail (JsVal.bool b :: rest)).map (fun _ => ((none : Option String), b))) ∧
    (∀ b : Bool,
      MessageRegister.parseTail [JsVal.bool b] = Except.ok (none, b, none, []) ∧
      (MessageRegister.showMessage [JsVal.sym Sym.ERROR, JsVal.bool b] stShowOk).res = Except.ok () ∧
      ((MessageRegister.showMessage [JsVal.sym Sym.ERROR, JsVal.bool b] stShowOk).st.dom.find? 1).map ElemSt.classes
        = some (if b then ["icon-dismiss"] else ["icon-dismiss", "invisible"]) ∧
      ((MessageRegister.showMessage [JsVal.sym Sym.ERROR, JsVal.bool b] stShowOk).st.dom.find? 2).map ElemSt.text
        = some "old") := by
  constructor
  · intro b rest
    cases rest with
    | nil => rfl
    | cons h t => cases h <;> rfl
  · intro b
    cases b <;> decide

/-- C10: every showMessage call that completes successfully removes both
the invisible and the fade-hide class from the element its first
argument resolved to, and never removes an event listener from that
element: in particular the transition-completion listener registered by
an earlier dismiss click (a dismiss fade-out still in progress) remains
attached while the element is made fully visible again. -/
theorem show_unhides_and_keeps_listener (s : St) (args : List JsVal)
    (mt : JsVal) (n : NodeId) (ic : Bool) (e : ElemSt) (p : String × Handler)
    (hres : (MessageRegister.getElementFromMessageType (args.headD JsVal.undef) s).res
      = Except.ok (mt, JsVal.elem n, ic))
    (hok : (MessageRegister.showMessage args s).res = Except.ok ())
    (he : s.dom.find? n = some e) (hp : p ∈ e.listeners) :
    ∃ e2, (MessageRegister.showMessage args s).st.dom.find? n = some e2 ∧
      "invisible" ∉ e2.classes ∧ "fade-hide" ∉ e2.classes ∧ p ∈ e2.listeners := by
  rw [showMessage_run] at hok ⊢
  obtain ⟨u1, h1, hok2, hst1⟩ := bind_okI hok
  rw [hst1, stid_logCall args s]
  rw [stid_logCall args s] at hok2
  obtain ⟨r, h2, hok3, hst2⟩ := bind_okI hok2
  rw [hst2, stid_getElementFromMessageType (args.headD JsVal.undef) s]
  rw [stid_getElementFromMessageType (args.headD JsVal.undef) s] at hok3
  have hr : r = (mt, JsVal.elem n, ic) := Except.ok.inj (h2.symm.trans hres)
  subst hr
  dsimp only at hok3 ⊢
  unfold MessageRegister.showMessageCore at hok3 ⊢
  obtain ⟨u2, h3, hok4, hst3⟩ := bind_okI hok3
  rw [hst3]
  set s1 := (MessageRegister.setupCustomHooks mt ic s).st with hs1
  obtain ⟨e1, he1, hp1⟩ := lmono_setupCustomHooks mt ic s n p e he hp
  rw [← hs1] at he1
  obtain ⟨icon, h4, hok5, hst4⟩ := bind_okI hok4
  rw [hst4, stid_getFirstByClass (JsVal.elem n) "icon-dismiss" s1]
  rw [stid_getFirstByClass (JsVal.elem n) "icon-dismiss" s1] at hok5
  obtain ⟨btn, h5, hok6, hst5⟩ := bind_okI hok5
  rw [hst5, stid_getFirstByClass (JsVal.elem n) "message-action-button" s1]
  rw [stid_getFirstByClass (JsVal.elem n) "message-action-button" s1] at hok6
  obtain ⟨link, h6, hok7, hst6⟩ := bind_okI hok6
  rw [hst6, stid_getLinkOf btn s1]
  rw [stid_getLinkOf btn s1] at hok7
  obtain ⟨u3, h7, hok8, hst7⟩ := bind_okI hok7
  rw [hst7]
  set s2 := (MessageRegister.installCustomListeners mt icon link s1).st with hs2
  obtain ⟨e2t, he2t, hp2t⟩ := lmono_installCustomListeners mt icon link s1 n p e1 he1 hp1
  rw [← hs2] at he2t
  have hfal : ¬ (isFalsy (JsVal.elem n) = true) := by simp [isFalsy]
  rw [if_neg hfal] at hok8 ⊢
  cases hparse : MessageRegister.parseTail args.tail with
  | error er =>
    rw [hparse] at hok8
    exact Except.noConfusion hok8
  | ok q =>
    obtain ⟨mm, dis, ab, rest⟩ := q
    rw [hparse] at hok8
    replace hok8 : ((MessageRegister.applyMainMessage (JsVal.elem n) mm rest >>= fun _ =>
        MessageRegister.applyDismissIconVisibility icon dis >>= fun _ =>
        MessageRegister.applyActionButton mt ab btn link >>= fun _ =>
        classRemoveM (JsVal.elem n) "invisible" >>= fun _ =>
        classRemoveM (JsVal.elem n) "fade-hide" >>= fun _ =>
        MessageRegister.runHook mt (JsVal.sym Sym.SHOW) JsVal.undef) s2).res
        = Except.ok () := hok8
    show ∃ e9, (((MessageRegister.applyMainMessage (JsVal.elem n) mm rest >>= fun _ =>
        MessageRegister.applyDismissIconVisibility icon dis >>= fun _ =>
        MessageRegister.applyActionButton mt ab btn link >>= fun _ =>
        classRemoveM (JsVal.elem n) "invisible" >>= fun _ =>
        classRemoveM (JsVal.elem n) "fade-hide" >>= fun _ =>
        MessageRegister.runHook mt (JsVal.sym Sym.SHOW) JsVal.undef) s2).st.dom.find? n
        = some e9) ∧ "invisible" ∉ e9.classes ∧ "fade-hide" ∉ e9.classes ∧ p ∈ e9.listeners
    obtain ⟨u4, h8, hok9, hst8⟩ := bind_okI hok8
    rw [hst8]
    set s3 := (MessageRegister.applyMainMessage (JsVal.elem n) mm rest s2).st with hs3
    obtain ⟨e3, he3, hp3⟩ := lmono_applyMainMessage (JsVal.elem n) mm rest s2 n p e2t he2t hp2t
    rw [← hs3] at he3
    obtain ⟨u5, h9, hok10, hst9⟩ := bind_okI hok9
    rw [hst9]
    set s4 := (MessageRegister.applyDismissIconVisibility icon dis s3).st with hs4
    obtain ⟨e4, he4, hp4⟩ := lmono_applyDismissIconVisibility icon dis s3 n p e3 he3 hp3
    rw [← hs4] at he4
    obtain ⟨u6, h10, hok11, hst10⟩ := bind_okI hok10
    rw [hst10]
    set s5 := (MessageRegister.applyActionButton mt ab btn link s4).st with hs5
    obtain ⟨e5, he5, hp5⟩ := lmono_applyActionButton mt ab btn link s4 n p e4 he4 hp4
    rw [← hs5] at he5
    have hrem1 : classRemoveM (JsVal.elem n) "invisible" s5 =
        ⟨Except.ok (), { s5 with dom := s5.dom.update n (fun e0 => { e0 with classes := e0.classes.filter (fun x => x != "invisible") }) }, []⟩ := by
      show domModify (JsVal.elem n) _ s5 = _
      rw [domModify_elem_run, he5]
    rw [bind_def, bindOut, hrem1]
    set s6 : St := { s5 with dom := s5.dom.update n (fun e0 => { e0 with classes := e0.classes.filter (fun x => x != "invisible") }) } with hs6
    have he6 : s6.dom.find? n = some { e5 with classes := e5.classes.filter (fun x => x != "invisible") } := by
      rw [hs6]
      show (s5.dom.update n _).find? n = _
      rw [find?_update_self, he5]
      rfl
    have hrem2 : classRemoveM (JsVal.elem n) "fade-hide" s6 =
        ⟨Except.ok (), { s6 with dom := s6.dom.update n (fun e0 => { e0 with classes := e0.classes.filter (fun x => x != "fade-hide") }) }, []⟩ := by
      show domModify (JsVal.elem n) _ s6 = _
      rw [domModify_elem_run, he6]
    show ∃ e9, (((classRemoveM (JsVal.elem n) "fade-hide" >>= fun _ =>
        MessageRegister.runHook mt (JsVal.sym Sym.SHOW) JsVal.undef) s6).st.dom.find? n = some e9) ∧
        "invisible" ∉ e9.classes ∧ "fade-hide" ∉ e9.classes ∧ p ∈ e9.listeners
    rw [bind_def, bindOut, hrem2]
    set s7 : St := { s6 with dom := s6.dom.update n (fun e0 => { e0 with classes := e0.classes.filter (fun x => x != "fade-hide") }) } with hs7
    have he7 : s7.dom.find? n = some { e5 with classes := (e5.classes.filter (fun x => x != "invisible")).filter (fun x => x != "fade-hide") } := by
      rw [hs7]
      show (s6.dom.update n _).find? n = _
      rw [find?_update_self, he6]
      rfl
    show ∃ e9, ((MessageRegister.runHook mt (JsVal.sym Sym.SHOW) JsVal.undef s7).st.dom.find? n = some e9) ∧
        "invisible" ∉ e9.classes ∧ "fade-hide" ∉ e9.classes ∧ p ∈ e9.listeners
    rw [stid_runHook mt (JsVal.sym Sym.SHOW) JsVal.undef s7]
    refine ⟨_, he7, ?_, ?_, ?_⟩
    · intro hmem
      have hmem2 := (List.mem_filter.mp hmem).1
      exact not_mem_filter_ne _ _ hmem2
    · exact not_mem_filter_ne _ _
    · exact hp5

/-- Witness for C10: a concrete call on a state whose Error box is
mid-dismiss (fade-hide set, transitionend listener attached): the call
succeeds and the conclusion is delivered by the theorem. -/
theorem show_unhides_and_keeps_listener_witness :
    ((MessageRegister.getElementFromMessageType
        ([JsVal.sym Sym.ERROR, JsVal.str "hi", JsVal.bool true].headD JsVal.undef) stMidDismiss).res
      = Except.ok (JsVal.sym Sym.ERROR, JsVal.elem 0, false) ∧
     (MessageRegister.showMessage [JsVal.sym Sym.ERROR, JsVal.str "hi", JsVal.bool true] stMidDismiss).res
      = Except.ok () ∧
     stMidDismiss.dom.find? 0 = some fadingBox ∧
     ("transitionend", Handler.dismissMessage) ∈ fadingBox.listeners ∧
     "fade-hide" ∈ fadingBox.classes) ∧
    (∃ e2, (MessageRegister.showMessage [JsVal.sym Sym.ERROR, JsVal.str "hi", JsVal.bool true] stMidDismiss).st.dom.find? 0
        = some e2 ∧
      "invisible" ∉ e2.classes ∧ "fade-hide" ∉ e2.classes ∧
      ("transitionend", Handler.dismissMessage) ∈ e2.listeners) :=
  ⟨⟨by decide, by decide, by decide, by decide, by decide⟩,
   show_unhides_and_keeps_listener stMidDismiss [JsVal.sym Sym.ERROR, JsVal.str "hi", JsVal.bool true]
     (JsVal.sym Sym.ERROR) 0 false fadingBox ("transitionend", Handler.dismissMessage)
     (by decide) (by decide) (by decide) (by decide)⟩

end Msgs
